import Mathlib

/-!
Verification of the BusinessFetcher core pipeline (src/app.py, src/script.py):
location resolution, Overpass query construction, HTTP error mapping, and the
tag-precedence business categorizer.  Python floats are modelled as rationals;
external capabilities (HTTP transport, the builtin float() parser, the
Nominatim geocoder) are explicit function parameters of the embedded
operations.
-/

namespace BusinessFetcher

/-! ## Taxonomy constants (src/app.py lines 15-24, src/script.py lines 18-28) -/

/-- Strict whitelist of commercial-focused amenities (`AMENITY_WHITELIST`). -/
def AMENITY_WHITELIST : List String :=
  ["restaurant", "cafe", "fast_food", "bar", "pub", "ice_cream", "food_court",
   "bank", "bureau_de_change", "pharmacy", "dentist", "doctors", "clinic",
   "veterinary", "cinema", "theatre", "nightclub", "casino", "marketplace",
   "post_office", "fuel", "car_rental", "car_wash"]

/-- Source: `AMENITY_REGEX = "|".join(AMENITY_WHITELIST)`. -/
def AMENITY_REGEX : String := String.intercalate "|" AMENITY_WHITELIST

/-- Source: `SHOP_BLACKLIST = ["vacant", "no", "disused"]`. -/
def SHOP_BLACKLIST : List String := ["vacant", "no", "disused"]

/-- Source: `SHOP_EXCLUDE_REGEX = "|".join(SHOP_BLACKLIST)`. -/
def SHOP_EXCLUDE_REGEX : String := String.intercalate "|" SHOP_BLACKLIST

/-! ## Raw entities and rows

A raw Overpass element carries a `tags` mapping.  `pd.json_normalize` turns
the tag mapping into flat columns named `tags.<key>`; a row of the resulting
DataFrame is modelled as a function from column name to `Option String`,
where `none` means the column is absent or holds NaN (so `some v` is exactly
the source's `col in row and pd.notna(row[col])` case with value `v`). -/

/-- One element of the Overpass JSON response, restricted to the `tags`
mapping (an association list with distinct keys), which is all the
categorizer reads. -/
structure RawEntity where
  tags : List (String × String)
  deriving Repr, DecidableEq

/-- The flat-row view of an entity produced by `pd.json_normalize`:
column `"tags." ++ k` holds the value of tag `k`, every other column of
interest is NaN/absent. -/
def rowOf (e : RawEntity) : String → Option String :=
  fun col => (e.tags.find? (fun kv => ("tags." ++ kv.1) == col)).map (·.2)

/-! ## Categorizer (src/app.py lines 119-135, src/script.py lines 87-96)

Direct translation of the if-chain in `categorize_business`.  (The local
binding `tags = row.get('tags', {})` in the source is never used after its
definition and is omitted.)  Both copies of the source function test the same
six columns in the same order — `in row and pd.notna(...)` in app.py,
`pd.notna(row.get(...))` in script.py — which the row model renders
identically, so one Lean function embeds both. -/

/-- Source: `categorize_business(row)`, hierarchical assignment of business type. -/
def categorize_business (row : String → Option String) : String :=
  match row "tags.shop" with
  | some v => "Shop: " ++ v
  | none =>
  match row "tags.amenity" with
  | some v => "Amenity: " ++ v
  | none =>
  match row "tags.office" with
  | some v => "Office: " ++ v
  | none =>
  match row "tags.tourism" with
  | some v => "Tourism: " ++ v
  | none =>
  match row "tags.craft" with
  | some v => "Craft: " ++ v
  | none =>
  match row "tags.leisure" with
  | some v => "Leisure: " ++ v
  | none => "Other"

/-- The six classification axes in the categorizer's precedence order:
column name paired with the display name used in the label. -/
def axes : List (String × String) :=
  [("tags.shop", "Shop"), ("tags.amenity", "Amenity"), ("tags.office", "Office"),
   ("tags.tourism", "Tourism"), ("tags.craft", "Craft"), ("tags.leisure", "Leisure")]

/-- The if-chain of `categorize_business` viewed as a fold over a list of
axes: the first axis whose column is present (non-NaN) produces the label,
otherwise the next axis is tried, and the empty list gives `"Other"`. -/
def categorizeFrom : List (String × String) → (String → Option String) → String
  | [], _ => "Other"
  | (k, l) :: rest, row =>
    match row k with
    | some v => l ++ ": " ++ v
    | none => categorizeFrom rest row

theorem categorize_business_eq_fold (row : String → Option String) :
    categorize_business row = categorizeFrom axes row := by
  cases h1 : row "tags.shop" <;> cases h2 : row "tags.amenity" <;>
    cases h3 : row "tags.office" <;> cases h4 : row "tags.tourism" <;>
    cases h5 : row "tags.craft" <;> cases h6 : row "tags.leisure" <;>
    simp [categorize_business, categorizeFrom, axes, h1, h2, h3, h4, h5, h6]

theorem categorizeFrom_first_match (axs : List (String × String))
    (row : String → Option String) :
    categorizeFrom axs row =
      match axs.find? (fun p => (row p.1).isSome) with
      | some p => p.2 ++ ": " ++ ((row p.1).getD "")
      | none => "Other" := by
  induction axs with
  | nil => rfl
  | cons hd tl ih =>
    obtain ⟨k, l⟩ := hd
    cases h : row k with
    | some v => simp [categorizeFrom, h, List.find?]
    | none => simpa [categorizeFrom, h, List.find?] using ih

/-! ## Query builder (src/app.py lines 52-94, src/script.py lines 34-69)

The Overpass QL query is an f-string over `radius_meters`, `lat`, `lon`.
The numeric interpolations are modelled by passing the already-rendered
strings; `pyFloatStr` renders an integral Python float the way `f"..."`
does (`1000.0` → `"1000.0"`), which is the only shape of value the claims
exercise (every radius considered yields integral meters). -/

/-- Source: `radius_meters = radius_km * 1000` (Python floats modelled as ℚ). -/
def radius_meters (radius_km : ℚ) : ℚ := radius_km * 1000

/-- Rendering of a Python float by an f-string: an integral float prints as
its integer part followed by `".0"`.  (Non-integral values never arise in the
properties below; the fallback branch prints the rational directly.) -/
def pyFloatStr (q : ℚ) : String :=
  if q.den = 1 then toString q.num ++ ".0" else toString q

/-- Tag filter of the amenity clauses: `["amenity"~"^(<whitelist>)$"]`. -/
def amenitySel : String := "[\"amenity\"~\"^(" ++ AMENITY_REGEX ++ ")$\"]"

/-- Tag filter of the shop clauses: `["shop"]["shop"!~"^(<blacklist>)$"]`. -/
def shopSel : String := "[\"shop\"][\"shop\"!~\"^(" ++ SHOP_EXCLUDE_REGEX ++ ")$\"]"

/-- Tag filter of the office clauses: `["office"]`. -/
def officeSel : String := "[\"office\"]"

/-- Tag filter of the tourism clauses. -/
def tourismSel : String := "[\"tourism\"~\"^(hotel|hostel|guest_house|motel)$\"]"

/-- Tag filter of the craft clauses: `["craft"]`. -/
def craftSel : String := "[\"craft\"]"

/-- Tag filter of the leisure clauses. -/
def leisureSel : String := "[\"leisure\"~\"^(fitness_centre|sports_centre|bowling_alley|water_park)$\"]"

/-- The six tag filters in the order they appear in the query. -/
def selectors : List String :=
  [amenitySel, shopSel, officeSel, tourismSel, craftSel, leisureSel]

/-- One line of the query body:
`<indent><geom><filter>(around:<radius_meters>,<lat>,<lon>);`. -/
def clauseLine (g sel rm lat lon : String) : String :=
  "      " ++ g ++ sel ++ "(around:" ++ rm ++ "," ++ lat ++ "," ++ lon ++ ");"

/-- The three geometry kinds each filter is instantiated at. -/
def geomKinds : List String := ["node", "way", "relation"]

/-- The three clause lines (node/way/relation) of one tag filter. -/
def clausesFor (sel rm lat lon : String) : List String :=
  geomKinds.map (fun g => clauseLine g sel rm lat lon)

/-- All 18 filter clauses of the query, in source order
(6 tag filters × 3 geometry kinds). -/
def clauses (rm lat lon : String) : List String :=
  (selectors.map (fun sel => clausesFor sel rm lat lon)).flatten

/-- One commented group of the query body: the three clause lines of a tag
filter, each terminated by a newline as in the source f-string. -/
def clauseGroup (sel rm lat lon : String) : String :=
  clauseLine "node" sel rm lat lon ++ "\n"
  ++ clauseLine "way" sel rm lat lon ++ "\n"
  ++ clauseLine "relation" sel rm lat lon ++ "\n"

/-- The full Overpass QL query string built by `get_osm_data` (and, with the
same 18 clauses, by the script's module-level `overpass_query`): header,
the six commented clause groups, and the `out center;` footer. -/
def overpass_query (rm lat lon : String) : String :=
  "\n    [out:json][timeout:25];\n    (\n"
  ++ "      // 1. Amenities: Commercial whitelist\n"
  ++ clauseGroup amenitySel rm lat lon ++ "\n"
  ++ "      // 2. Shops: All valid shops\n"
  ++ clauseGroup shopSel rm lat lon ++ "\n"
  ++ "      // 3. Offices: All offices\n"
  ++ clauseGroup officeSel rm lat lon ++ "\n"
  ++ "      // 4. Tourism: Hotels and accommodation\n"
  ++ clauseGroup tourismSel rm lat lon ++ "\n"
  ++ "      // 5. Craft: Skilled trades\n"
  ++ clauseGroup craftSel rm lat lon ++ "      \n"
  ++ "      // 6. Leisure: Commercial leisure\n"
  ++ clauseGroup leisureSel rm lat lon
  ++ "    );\n    out center;\n    "

/-- Substring relation on strings, as character lists: `small` occurs
contiguously somewhere in `big`. -/
def substrOf (small big : String) : Prop :=
  ∃ pre post : List Char, big.data = pre ++ small.data ++ post

theorem substrOf_append_left (s a b : String) (h : substrOf s b) :
    substrOf s (a ++ b) := by
  obtain ⟨pre, post, hb⟩ := h
  exact ⟨a.data ++ pre, post, by simp [String.data_append, hb]⟩

theorem substrOf_append_right (s a b : String) (h : substrOf s a) :
    substrOf s (a ++ b) := by
  obtain ⟨pre, post, ha⟩ := h
  exact ⟨pre, post ++ b.data, by simp [String.data_append, ha]⟩

theorem substrOf_refl (s : String) : substrOf s s := ⟨[], [], by simp⟩

theorem substrOf_trans (a b c : String) (hab : substrOf a b) (hbc : substrOf b c) :
    substrOf a c := by
  obtain ⟨p1, q1, h1⟩ := hab
  obtain ⟨p2, q2, h2⟩ := hbc
  exact ⟨p2 ++ p1, q1 ++ q2, by simp [h2, h1, List.append_assoc]⟩

theorem around_substr_clauseLine (g sel rm lat lon : String) :
    substrOf ("around:" ++ rm ++ "," ++ lat ++ "," ++ lon)
      (clauseLine g sel rm lat lon) := by
  refine ⟨("      " ++ g ++ sel ++ "(").data, (");" : String).data, ?_⟩
  have hpar : ("(around:" : String).data = ("(" : String).data ++ ("around:" : String).data := by
    decide
  simp [clauseLine, String.data_append, hpar, List.append_assoc]

theorem clauseLine_substr_group (g sel rm lat lon : String) (hg : g ∈ geomKinds) :
    substrOf (clauseLine g sel rm lat lon) (clauseGroup sel rm lat lon) := by
  simp [geomKinds] at hg
  unfold clauseGroup
  rcases hg with rfl | rfl | rfl
  · iterate 5 apply substrOf_append_right
    exact substrOf_refl _
  · iterate 3 apply substrOf_append_right
    exact substrOf_append_left _ _ _ (substrOf_refl _)
  · apply substrOf_append_right
    exact substrOf_append_left _ _ _ (substrOf_refl _)

theorem clauseGroup_substr_query (sel rm lat lon : String) (hsel : sel ∈ selectors) :
    substrOf (clauseGroup sel rm lat lon) (overpass_query rm lat lon) := by
  simp [selectors] at hsel
  unfold overpass_query
  rcases hsel with rfl | rfl | rfl | rfl | rfl | rfl
  · iterate 16 apply substrOf_append_right
    exact substrOf_append_left _ _ _ (substrOf_refl _)
  · iterate 13 apply substrOf_append_right
    exact substrOf_append_left _ _ _ (substrOf_refl _)
  · iterate 10 apply substrOf_append_right
    exact substrOf_append_left _ _ _ (substrOf_refl _)
  · iterate 7 apply substrOf_append_right
    exact substrOf_append_left _ _ _ (substrOf_refl _)
  · iterate 4 apply substrOf_append_right
    exact substrOf_append_left _ _ _ (substrOf_refl _)
  · apply substrOf_append_right
    exact substrOf_append_left _ _ _ (substrOf_refl _)

theorem mem_clauses (c rm lat lon : String) (hc : c ∈ clauses rm lat lon) :
    ∃ sel ∈ selectors, ∃ g ∈ geomKinds, c = clauseLine g sel rm lat lon := by
  unfold clauses at hc
  rw [List.mem_flatten] at hc
  obtain ⟨l, hl, hcl⟩ := hc
  rw [List.mem_map] at hl
  obtain ⟨sel, hsel, rfl⟩ := hl
  unfold clausesFor at hcl
  rw [List.mem_map] at hcl
  obtain ⟨g, hg, rfl⟩ := hcl
  exact ⟨sel, hsel, g, hg, rfl⟩

/-! ## Fetch client (src/app.py lines 96-106) -/

/-- The JSON body of an Overpass response: `data.get('elements', [])` reads
the optional top-level `elements` array. -/
structure OsmJson where
  elements? : Option (List RawEntity)
  deriving Repr, DecidableEq

/-- An HTTP response: status code plus decoded JSON body.  The transport is
modelled as a capability `String → HttpResponse` from query text to
response (transport-level failures are outside the claims considered). -/
structure HttpResponse where
  status : Nat
  body : OsmJson
  deriving Repr, DecidableEq

/-- The two error kinds `get_osm_data` can raise: the explicit
`ConnectionError` for status ≥ 500, and the `requests.HTTPError` that
`raise_for_status()` raises for a 4xx/5xx status. -/
inductive FetchError where
  | connectionError (msg : String)
  | httpError (status : Nat)
  deriving Repr, DecidableEq

/-- The message of the explicit `ConnectionError`. -/
def overloadedMsg : String :=
  "The OpenStreetMap server is currently overloaded. Please wait a few seconds and try again."

/-- Source: `response.raise_for_status()`; raises `HTTPError` exactly when the
status code is in 400-599. -/
def raise_for_status (status : Nat) : Except FetchError Unit :=
  if 400 ≤ status ∧ status < 600 then
    Except.error (FetchError.httpError status)
  else
    Except.ok ()

/-- Source: `get_osm_data(lat, lon, radius_km)`.  It converts the radius to meters,
builds the Overpass query, performs the GET, maps status ≥ 500 to
`ConnectionError`, lets `raise_for_status` reject remaining 4xx statuses,
and returns the decoded JSON body otherwise. -/
def get_osm_data (http : String → HttpResponse) (lat lon : String)
    (radius_km : ℚ) : Except FetchError OsmJson :=
  let rm := radius_meters radius_km
  let query := overpass_query (pyFloatStr rm) lat lon
  let response := http query
  if response.status ≥ 500 then
    Except.error (FetchError.connectionError overloadedMsg)
  else
    match raise_for_status response.status with
    | Except.error e => Except.error e
    | Except.ok _ => Except.ok response.body

/-- UI lower bound on the radius: `st.number_input(..., min_value=0.1)`. -/
def ui_radius_min : ℚ := 1 / 10

/-- UI upper bound on the radius: `max_value=50.0`. -/
def ui_radius_max : ℚ := 50

/-! ## Normalizer (src/app.py lines 109-138) -/

/-- Source: `process_data(data)`.  It reads `elements` (default `[]`), returns an empty
table if there are none, otherwise normalizes each element to a row and
appends the `business_category` column computed by `categorize_business`.
The resulting table is modelled as the list of (entity, category) rows in
element order. -/
def process_data (data : OsmJson) : List (RawEntity × String) :=
  let elements := data.elements?.getD []
  if elements.isEmpty then []
  else elements.map (fun e => (e, categorize_business (rowOf e)))

/-! ## Location resolver (src/app.py lines 27-49)

`geocode_location` is parametrized by two capabilities: `pf`, the builtin
`float()` parser (`none` models a raised `ValueError`), and `geo`, the
Nominatim search returning the candidate list decoded from JSON.  The result
is paired with the number of network calls performed (the coordinate
fast path performs zero, the Nominatim path exactly one). -/

/-- The error kinds of the resolver: the explicit
`ValueError("Could not find location: '<query>'")` for an empty candidate
list, and the `ValueError` that `float()` raises on a malformed candidate
coordinate (which the function does not catch). -/
inductive GeoError where
  | locationNotFound (query : String)
  | candidateParseError
  deriving Repr, DecidableEq

/-- One Nominatim candidate: `lat`/`lon` as strings, per the JSON protocol. -/
structure GeoCandidate where
  lat : String
  lon : String
  deriving Repr, DecidableEq

/-- The Nominatim branch of `geocode_location`: one GET, then
`if not data: raise ValueError(...)`, else
`float(data[0]['lat']), float(data[0]['lon'])`. -/
def nominatim_search (pf : String → Option ℚ) (geo : String → List GeoCandidate)
    (query : String) : Except GeoError (ℚ × ℚ) :=
  match geo query with
  | [] => Except.error (GeoError.locationNotFound query)
  | c :: _ =>
    match pf c.lat, pf c.lon with
    | some la, some lo => Except.ok (la, lo)
    | _, _ => Except.error GeoError.candidateParseError

/-- Python's `str.strip()`: drop surrounding whitespace. -/
def pyStrip (s : String) : String :=
  ⟨((s.data.dropWhile Char.isWhitespace).reverse.dropWhile Char.isWhitespace).reverse⟩

/-- Python's `str.split(',')`: split on every comma, keeping empty parts
(so the result always has one more part than the string has commas). -/
def pySplitComma (s : String) : List String :=
  (s.data.splitOn ',').map List.asString

/-- Source: `geocode_location(query)`.  It does: split on `','`; with exactly two parts, try
`float(parts[0].strip()), float(parts[1].strip())` and return directly on
success (a `ValueError` from either `float` is caught and falls through);
otherwise delegate to the Nominatim search.  The second component counts
network calls. -/
def geocode_location (pf : String → Option ℚ) (geo : String → List GeoCandidate)
    (query : String) : Except GeoError (ℚ × ℚ) × Nat :=
  match pySplitComma query with
  | [a, b] =>
    match pf (pyStrip a), pf (pyStrip b) with
    | some la, some lo => (Except.ok (la, lo), 0)
    | _, _ => (nominatim_search pf geo query, 1)
  | _ => (nominatim_search pf geo query, 1)

/-! A concrete instance of the `float()` capability, used to evaluate the
resolver on the literal inputs of the testable properties.  It parses plain
decimal literals — optional surrounding whitespace, optional sign, digits
with an optional fractional part — exactly as `float()` does on them;
exponent and `inf`/`nan` forms, which no considered input uses, are treated
as unparsable. -/

/-- Value of a digit run; `none` if any character is not a digit.
(The empty run maps to `some 0`; callers reject the forms where Python
requires a digit.) -/
def natOfDigits (cs : List Char) : Option Nat :=
  cs.foldl (fun acc c =>
    match acc with
    | none => none
    | some a => if c.isDigit then some (a * 10 + (c.toNat - 48)) else none)
    (some 0)

/-- Character-level analysis of a decimal literal: strip whitespace, read an
optional sign, split at the decimal point, and value the digit runs.
Returns (negative?, integer value, fraction value, fraction length), or
`none` when the text is not a decimal literal. -/
def pyFloatParts (s : String) : Option (Bool × Nat × Nat × Nat) :=
  let signed : Bool × List Char :=
    match (pyStrip s).data with
    | '-' :: rest => (true, rest)
    | '+' :: rest => (false, rest)
    | rest => (false, rest)
  match signed.2.splitOn '.' with
  | [intPart] =>
    if intPart.isEmpty then none
    else (natOfDigits intPart).map (fun n => (signed.1, n, 0, 0))
  | [intPart, fracPart] =>
    if intPart.isEmpty && fracPart.isEmpty then none
    else
      match natOfDigits intPart, natOfDigits fracPart with
      | some i, some f => some (signed.1, i, f, fracPart.length)
      | _, _ => none
  | _ => none

/-- Model of `float()` on plain decimal literals: `"52.3791283"` ↦ `523791283/10^7`,
`"New York"` ↦ `none`. -/
def pyFloat (s : String) : Option ℚ :=
  (pyFloatParts s).map (fun p =>
    (if p.1 then (-1 : ℚ) else 1) * ((p.2.1 : ℚ) + (p.2.2.1 : ℚ) / (10 : ℚ) ^ p.2.2.2))

/-! ## Claims -/

/-- C1: whenever the `shop` tag is present (non-NaN) the category is
`"Shop: <value>"` — in particular it starts with `"Shop: "` regardless of
the other axis tags; in general the axes are evaluated in the fixed
precedence order shop, amenity, office, tourism, craft, leisure, the first
axis whose tag is present determines the label `"<Axis>: <value>"`, and if
none is present the label is `"Other"`. -/
theorem C1_shop_precedence_first_axis_wins (row : String → Option String) :
    categorize_business row =
      (match axes.find? (fun p => (row p.1).isSome) with
       | some p => p.2 ++ ": " ++ ((row p.1).getD "")
       | none => "Other")
    ∧ (∀ v, row "tags.shop" = some v → categorize_business row = "Shop: " ++ v) := by
  constructor
  · rw [categorize_business_eq_fold]
    exact categorizeFrom_first_match axes row
  · intro v hv
    simp [categorize_business, hv]

/-- Witness for C1: an entity with both a shop and an amenity tag is
labelled from the shop axis. -/
theorem C1_shop_precedence_first_axis_wins_witness :
    categorize_business (rowOf { tags := [("shop", "bakery"), ("amenity", "cafe")] })
      = "Shop: " ++ "bakery" :=
  (C1_shop_precedence_first_axis_wins
      (rowOf { tags := [("shop", "bakery"), ("amenity", "cafe")] })).2
    "bakery" (by decide)

/-- C8: the categorizer handles a missing axis tag by skipping to the next
axis — on a row where an axis column is absent, the chain headed by that
axis gives the same result as the chain without it — `categorize_business`
is the full six-axis chain (and being a total Lean function it never
faults), and a row with all six axis columns absent is labelled
`"Other"`. -/
theorem C8_missing_tag_skips_axis (row : String → Option String)
    (k l : String) (rest : List (String × String)) :
    (row k = none → categorizeFrom ((k, l) :: rest) row = categorizeFrom rest row)
    ∧ categorize_business row = categorizeFrom axes row
    ∧ ((∀ p ∈ axes, row p.1 = none) → categorize_business row = "Other") := by
  refine ⟨fun h => by simp [categorizeFrom, h], categorize_business_eq_fold row, fun h => ?_⟩
  have hs := h ("tags.shop", "Shop") (by simp [axes])
  have ha := h ("tags.amenity", "Amenity") (by simp [axes])
  have ho := h ("tags.office", "Office") (by simp [axes])
  have ht := h ("tags.tourism", "Tourism") (by simp [axes])
  have hc := h ("tags.craft", "Craft") (by simp [axes])
  have hl := h ("tags.leisure", "Leisure") (by simp [axes])
  simp [categorize_business, hs, ha, ho, ht, hc, hl]

/-- Witness for C8: on the row with every column absent, the shop axis is
skipped and the overall label is `"Other"`. -/
theorem C8_missing_tag_skips_axis_witness :
    categorizeFrom [("tags.shop", "Shop")] (fun _ => none)
        = categorizeFrom [] (fun _ => none)
    ∧ categorize_business (fun _ => none) = "Other" :=
  ⟨(C8_missing_tag_skips_axis (fun _ => none) "tags.shop" "Shop" []).1 rfl,
   (C8_missing_tag_skips_axis (fun _ => none) "tags.shop" "Shop" []).2.2 (fun p _ => rfl)⟩

/-- C9: normalization is deterministic and stateless — two runs of
`process_data` on identical input are identical, and the output is the
order-preserving map of the categorizer over the input elements (no hidden
state enters the computation). -/
theorem C9_process_data_deterministic (data : OsmJson) :
    process_data data = process_data data
    ∧ process_data data
        = (data.elements?.getD []).map (fun e => (e, categorize_business (rowOf e))) := by
  refine ⟨rfl, ?_⟩
  rcases hd : data.elements?.getD [] with _ | ⟨a, l⟩ <;> simp [process_data, hd]

/-- C10: the shop blacklist acts only at query construction — the shop
clause filter of the query excludes exactly `vacant|no|disused` — while the
categorizer still labels an entity whose shop value is blacklisted as
`"Shop: <value>"` rather than skipping the shop axis. -/
theorem C10_blacklist_only_at_query_construction (v : String)
    (hv : v ∈ SHOP_BLACKLIST) :
    categorize_business (rowOf { tags := [("shop", v)] }) = "Shop: " ++ v
    ∧ SHOP_EXCLUDE_REGEX = "vacant|no|disused"
    ∧ shopSel = "[\"shop\"][\"shop\"!~\"^(vacant|no|disused)$\"]" := by
  refine ⟨?_, by decide, by decide⟩
  have hbeq : (("tags." ++ "shop" : String) == "tags.shop") = true := by decide
  have h : rowOf { tags := [("shop", v)] } "tags.shop" = some v := by
    simp [rowOf, List.find?, hbeq]
  simp [categorize_business, h]

/-- Witness for C10 at the blacklisted value `"vacant"`. -/
theorem C10_blacklist_only_at_query_construction_witness :
    categorize_business (rowOf { tags := [("shop", "vacant")] }) = "Shop: " ++ "vacant" :=
  (C10_blacklist_only_at_query_construction "vacant" (by decide)).1

/-- C2 counterexample: at the non-positive radius `0` no `InvalidRadius`
rejection happens — `get_osm_data` builds the (18-clause) query and, given a
successful HTTP response, returns the body. -/
theorem C2_counterexample_radius_zero_accepted :
    (0 : ℚ) ≤ 0
    ∧ get_osm_data (fun _ => { status := 200, body := { elements? := some [] } })
        "52.0" "4.0" 0 = Except.ok { elements? := some [] }
    ∧ (clauses (pyFloatStr (radius_meters 0)) "52.0" "4.0").length = 18 :=
  ⟨le_refl 0, rfl, rfl⟩

/-- C2 (amended): the code performs no radius validation — for every radius,
non-positive ones included, `get_osm_data` converts to meters, builds the
query and proceeds to the HTTP exchange, succeeding on a 200 response; a
non-positive radius is prevented only by the UI constraint
`min_value=0.1 > 0` of the radius input. -/
theorem C2_amended_no_radius_validation (radius_km : ℚ) (lat lon : String)
    (body : OsmJson) :
    get_osm_data (fun _ => { status := 200, body := body }) lat lon radius_km
        = Except.ok body
    ∧ (0 : ℚ) < ui_radius_min :=
  ⟨rfl, by norm_num [ui_radius_min]⟩

/-- C3: the fetch client maps every status ≥ 500 (503 in particular) to the
explicit `ConnectionError`, every 4xx status (400 in particular) to the
distinguishable `HTTPError` carrying the status, and a 200 response whose
body is an empty `elements` array to the empty entity table rather than an
error. -/
theorem C3_fetch_error_mapping :
    (∀ (s : Nat) (body : OsmJson) (lat lon : String) (r : ℚ), 500 ≤ s →
      get_osm_data (fun _ => { status := s, body := body }) lat lon r
        = Except.error (FetchError.connectionError overloadedMsg))
    ∧ (∀ (s : Nat) (body : OsmJson) (lat lon : String) (r : ℚ), 400 ≤ s → s < 500 →
      get_osm_data (fun _ => { status := s, body := body }) lat lon r
        = Except.error (FetchError.httpError s))
    ∧ (∀ (lat lon : String) (r : ℚ),
      (get_osm_data (fun _ => { status := 200, body := { elements? := some [] } })
          lat lon r).map process_data = Except.ok []) := by
  refine ⟨?_, ?_, ?_⟩
  · intro s body lat lon r h
    simp [get_osm_data, h]
  · intro s body lat lon r h1 h2
    have hns : ¬ 500 ≤ s := by omega
    have hb : s < 600 := by omega
    simp [get_osm_data, raise_for_status, hns, h1, hb]
  · intro lat lon r
    rfl

/-- Witness for C3 at statuses 503, 400 and 200 with an empty element
list. -/
theorem C3_fetch_error_mapping_witness :
    get_osm_data (fun _ => { status := 503, body := { elements? := some [] } })
        "52.0" "4.0" 1 = Except.error (FetchError.connectionError overloadedMsg)
    ∧ get_osm_data (fun _ => { status := 400, body := { elements? := some [] } })
        "52.0" "4.0" 1 = Except.error (FetchError.httpError 400)
    ∧ (get_osm_data (fun _ => { status := 200, body := { elements? := some [] } })
        "52.0" "4.0" 1).map process_data = Except.ok [] :=
  ⟨C3_fetch_error_mapping.1 503 { elements? := some [] } "52.0" "4.0" 1 (by norm_num),
   C3_fetch_error_mapping.2.1 400 { elements? := some [] } "52.0" "4.0" 1
     (by norm_num) (by norm_num),
   C3_fetch_error_mapping.2.2 "52.0" "4.0" 1⟩

/-- C4: an input that splits at the comma into exactly two parts, both of
which `float()` parses, is returned directly as that (lat, lon) pair with
zero network calls — the geocoding capability is never consulted. -/
theorem C4_coordinates_no_network (pf : String → Option ℚ)
    (geo : String → List GeoCandidate) (query a b : String) (la lo : ℚ)
    (hsplit : pySplitComma query = [a, b])
    (ha : pf (pyStrip a) = some la) (hb : pf (pyStrip b) = some lo) :
    geocode_location pf geo query = (Except.ok (la, lo), 0) := by
  simp [geocode_location, hsplit, ha, hb]

/-- Witness for C4 at the literal input of the spec, with the concrete
decimal parser: the pair is returned with zero network calls. -/
theorem C4_coordinates_no_network_witness :
    geocode_location pyFloat (fun _ => []) "52.3791283, 4.900272"
      = (Except.ok ((52 : ℚ) + 3791283 / 10 ^ 7, (4 : ℚ) + 900272 / 10 ^ 6), 0) :=
  C4_coordinates_no_network pyFloat (fun _ => []) "52.3791283, 4.900272"
    "52.3791283" " 4.900272" _ _
    (by decide)
    (by have h : pyFloatParts (pyStrip "52.3791283") = some (false, 52, 3791283, 7) := by
          decide
        simp [pyFloat, h])
    (by have h : pyFloatParts (pyStrip " 4.900272") = some (false, 4, 900272, 6) := by
          decide
        simp [pyFloat, h])

/-- C5: an input with exactly one comma where at least one part is not a
valid float does not raise a parse error: the resolver falls through to the
free-text geocoding path (whose result, whatever it is, becomes the
resolver's result, with the one network call counted). -/
theorem C5_invalid_floats_fall_through (pf : String → Option ℚ)
    (geo : String → List GeoCandidate) (query a b : String)
    (hsplit : pySplitComma query = [a, b])
    (hbad : pf (pyStrip a) = none ∨ pf (pyStrip b) = none) :
    geocode_location pf geo query = (nominatim_search pf geo query, 1) := by
  rcases hbad with h | h
  · simp [geocode_location, hsplit, h]
  · cases ha : pf (pyStrip a) <;> simp [geocode_location, hsplit, ha, h]

/-- Witness for C5 at `"New York, USA"`: with a geocoder that returns a
candidate, the resolver geocodes instead of erroring. -/
theorem C5_invalid_floats_fall_through_witness :
    geocode_location pyFloat (fun _ => [{ lat := "40.7", lon := "-74.0" }]) "New York, USA"
      = (nominatim_search pyFloat (fun _ => [{ lat := "40.7", lon := "-74.0" }])
          "New York, USA", 1) :=
  C5_invalid_floats_fall_through pyFloat (fun _ => [{ lat := "40.7", lon := "-74.0" }])
    "New York, USA" "New York" " USA"
    (by decide)
    (Or.inl (by have h : pyFloatParts (pyStrip "New York") = none := by decide
                simp [pyFloat, h]))

/-- C6: on a free-text input (one that does not parse as a coordinate pair)
for which the geocoding capability returns an empty candidate list, the
resolver fails with exactly the `LocationNotFound` error for that input. -/
theorem C6_empty_geocode_location_not_found (pf : String → Option ℚ)
    (geo : String → List GeoCandidate) (query : String)
    (hfree : ∀ a b, pySplitComma query = [a, b] →
      pf (pyStrip a) = none ∨ pf (pyStrip b) = none)
    (hempty : geo query = []) :
    geocode_location pf geo query
      = (Except.error (GeoError.locationNotFound query), 1) := by
  have hnom : nominatim_search pf geo query
      = Except.error (GeoError.locationNotFound query) := by
    simp [nominatim_search, hempty]
  cases hs : pySplitComma query with
  | nil => simp [geocode_location, hs, hnom]
  | cons a rest =>
    cases rest with
    | nil => simp [geocode_location, hs, hnom]
    | cons b rest2 =>
      cases rest2 with
      | nil =>
        rcases hfree a b hs with h | h
        · simp [geocode_location, hs, h, hnom]
        · cases ha : pf (pyStrip a) <;> simp [geocode_location, hs, ha, h, hnom]
      | cons c rest3 => simp [geocode_location, hs, hnom]

/-- Witness for C6 at `"Amsterdam Centraal"` with a geocoder returning no
candidates. -/
theorem C6_empty_geocode_location_not_found_witness :
    geocode_location pyFloat (fun _ => []) "Amsterdam Centraal"
      = (Except.error (GeoError.locationNotFound "Amsterdam Centraal"), 1) :=
  C6_empty_geocode_location_not_found pyFloat (fun _ => []) "Amsterdam Centraal"
    (fun a b h => by
      have hsplit : pySplitComma "Amsterdam Centraal" = ["Amsterdam Centraal"] := by decide
      rw [hsplit] at h
      exact absurd h (by simp))
    rfl

/-- C7: radius conversion and placement — `radius_meters 1 = 1000`, which the
query's f-string renders as `"1000.0"`; the query has exactly 18 filter
clauses (3 geometry kinds × 6 axes); and every one of them contains the
substring `around:<radius_meters>,<lat>,<lon>` (with the same rendered
radius value) and occurs in the built query string. -/
theorem C7_radius_meters_in_all_clauses (rm lat lon : String) :
    radius_meters 1 = 1000
    ∧ pyFloatStr (radius_meters 1) = "1000.0"
    ∧ (clauses rm lat lon).length = 18
    ∧ (∀ c ∈ clauses rm lat lon,
        substrOf ("around:" ++ rm ++ "," ++ lat ++ "," ++ lon) c
        ∧ substrOf c (overpass_query rm lat lon)) := by
  have h1000 : radius_meters 1 = 1000 := by norm_num [radius_meters]
  refine ⟨h1000, ?_, rfl, ?_⟩
  · rw [h1000]
    decide
  · intro c hc
    obtain ⟨sel, hsel, g, hg, rfl⟩ := mem_clauses c rm lat lon hc
    exact ⟨around_substr_clauseLine g sel rm lat lon,
      substrOf_trans _ _ _ (clauseLine_substr_group g sel rm lat lon hg)
        (clauseGroup_substr_query sel rm lat lon hsel)⟩

/-- Witness for C7 at radius 1 km and a concrete center: the rendered radius
is `"1000.0"` and the first clause contains the `around` filter for it. -/
theorem C7_radius_meters_in_all_clauses_witness :
    pyFloatStr (radius_meters 1) = "1000.0"
    ∧ substrOf ("around:" ++ "1000.0" ++ "," ++ "52.0" ++ "," ++ "4.0")
        (clauseLine "node" amenitySel "1000.0" "52.0" "4.0") :=
  ⟨(C7_radius_meters_in_all_clauses "1000.0" "52.0" "4.0").2.1,
   ((C7_radius_meters_in_all_clauses "1000.0" "52.0" "4.0").2.2.2
      (clauseLine "node" amenitySel "1000.0" "52.0" "4.0")
      (by simp [clauses, clausesFor, selectors, geomKinds])).1⟩

end BusinessFetcher
